import Mathlib

/-!
Verification of `front_end/resources/BackgroundServiceView.js` (Chromium
DevTools background-service panel view).

The JavaScript is shallowly embedded: the view's mutable fields become a
`ViewState` record, the external collaborators (security-origin manager,
service-worker manager, model event buffer, timestamp formatter) become an
`Env` record, and each method becomes a pure function on these records.
JS strings are Lean `String`s; `String.prototype.substr(0, n)` is
`String.take n` (negative JS lengths clamp to 0, as does `Nat` subtraction),
`substr(k)` is `String.drop k`, and `Array.prototype.includes` is
`List.contains` (exact string equality). JS `Map`s are association lists
in insertion order, so `Map.get` is `List.lookup` and
`versions.values().next().value` is the head of the version list.
-/

namespace BackgroundServiceView

/-- One metadata key/value pair of a background-service event
(`Protocol.BackgroundService.EventMetadata`). -/
structure EventMetadata where
  key : String
  value : String
deriving DecidableEq, Repr

/-- `Protocol.BackgroundService.BackgroundServiceEvent`: the domain event
delivered by the model. `timestamp` is seconds (a rational stands in for the
JS number). -/
structure ServiceEvent where
  timestamp : Rat
  origin : String
  serviceWorkerRegistrationId : String
  service : String
  eventName : String
  instanceId : String
  eventMetadata : List EventMetadata
deriving DecidableEq, Repr

/-- A service-worker version as consumed here: only `scriptURL` and
`securityOrigin` are read. -/
structure Version where
  scriptURL : String
  securityOrigin : String
deriving DecidableEq, Repr

/-- A service-worker registration: its `versions` map, kept in insertion
order. -/
structure Registration where
  versions : List Version
deriving DecidableEq, Repr

/-- `Resources.BackgroundServiceModel.RecordingState`: payload of the
RecordingStateChanged notification. -/
structure RecordingState where
  isRecording : Bool
  serviceName : String
deriving DecidableEq, Repr

/-- The row data object built by `_createEventData` (the
`Resources.BackgroundServiceView.EventData` typedef). -/
structure EventData where
  id : Nat
  timestamp : String
  origin : String
  swSource : String
  eventName : String
  instanceId : String
deriving DecidableEq, Repr

/-- A data-grid row node (`EventDataNode`): the displayed data plus the
retained metadata used by the popover. -/
structure EventDataNode where
  data : EventData
  eventMetadata : List EventMetadata
deriving DecidableEq, Repr

/-- The external world the view reads: the security-origin manager's current
origins, the service-worker manager's registration map, the model's retained
event buffer per service, and the host toolkit's `UI.formatTimestamp`. -/
structure Env where
  securityOrigins : List String
  registrations : List (String × Registration)
  getEvents : String → List ServiceEvent
  formatTimestamp : Rat → Bool → String

/-- The view's own mutable state: the bound service name (const), the record
button's toggled flag, the "show events from other domains" checkbox, and
the data grid's row list (`_dataGrid.rootNode().children`). -/
@[ext]
structure ViewState where
  serviceName : String
  recordButtonToggled : Bool
  originCheckboxChecked : Bool
  rows : List EventDataNode
deriving DecidableEq

/-- `_acceptEvent`: reject a non-matching service; accept everything when the
origin checkbox is checked; otherwise strip the trailing character of the
event origin (`substr(0, length - 1)`) and test membership in the
security-origin manager's origins (`includes`). -/
def acceptEvent (env : Env) (v : ViewState) (e : ServiceEvent) : Bool :=
  if e.service ≠ v.serviceName then false
  else if v.originCheckboxChecked then true
  else
    let origin := e.origin.take (e.origin.length - 1)
    env.securityOrigins.contains origin

/-- The service-worker source computation inside `_createEventData`: look up
the event's registration id; if present with at least one version, take the
first version and drop the prefix of its script URL whose length is the
length of its security origin (`scriptURL.substr(securityOrigin.length)`);
otherwise the empty string. -/
def swSourceOf (env : Env) (e : ServiceEvent) : String :=
  match env.registrations.lookup e.serviceWorkerRegistrationId with
  | none => ""
  | some reg =>
    match reg.versions with
    | [] => ""
    | version :: _ => version.scriptURL.drop version.securityOrigin.length

/-- `_createEventData`: the row data object; `id` is the current child count
of the grid root, `timestamp` is `UI.formatTimestamp(timestamp * 1000, true)`. -/
def createEventData (env : Env) (v : ViewState) (e : ServiceEvent) : EventData :=
  { id := v.rows.length
  , timestamp := env.formatTimestamp (e.timestamp * 1000) true
  , origin := e.origin
  , swSource := swSourceOf env e
  , eventName := e.eventName
  , instanceId := e.instanceId }

/-- `_addEvent`: build the data node and append it to the grid root. -/
def addEvent (env : Env) (v : ViewState) (e : ServiceEvent) : ViewState :=
  { v with rows := v.rows ++ [⟨createEventData env v e, e.eventMetadata⟩] }

/-- `_clearView`: remove every row; nothing else changes. -/
def clearView (v : ViewState) : ViewState :=
  { v with rows := [] }

/-- `_refreshView`: clear, re-fetch the model buffer for the bound service,
filter through `_acceptEvent`, and append the survivors in order (the filter
and fetch run on the already-cleared view, as in the source). -/
def refreshView (env : Env) (v : ViewState) : ViewState :=
  ((env.getEvents (clearView v).serviceName).filter
      (fun e => acceptEvent env (clearView v) e)).foldl
    (fun s e => addEvent env s e) (clearView v)

/-- A `model.setRecording(shouldRecord, serviceName)` request as issued by
the view. -/
structure SetRecordingRequest where
  shouldRecord : Bool
  serviceName : String
deriving DecidableEq, Repr

/-- `_toggleRecording`: issue one `setRecording` request with the negation of
the button's toggled flag; the view state itself is untouched (the button
flips only on the model's confirmation). -/
def toggleRecording (v : ViewState) : List SetRecordingRequest × ViewState :=
  ([⟨!v.recordButtonToggled, v.serviceName⟩], v)

/-- `_onRecordingStateChanged`: ignore a state for another service; otherwise
set the record button's toggled flag to the notified value. -/
def onRecordingStateChanged (v : ViewState) (state : RecordingState) : ViewState :=
  if state.serviceName ≠ v.serviceName then v
  else { v with recordButtonToggled := state.isRecording }

/-- `_onEventReceived`: drop an event `_acceptEvent` rejects; otherwise append
one row. -/
def onEventReceived (env : Env) (v : ViewState) (e : ServiceEvent) : ViewState :=
  if !acceptEvent env v e then v
  else addEvent env v e

/-- `_onOriginChanged`: no-op when the checkbox already shows all origins,
else a full refresh. -/
def onOriginChanged (env : Env) (v : ViewState) : ViewState :=
  if v.originCheckboxChecked then v
  else refreshView env v

/-- A `model.clearEvents(serviceName)` request as issued by the view. -/
structure ClearEventsRequest where
  serviceName : String
deriving DecidableEq, Repr

/-- `_deleteEvents`: request the model purge, then clear the view. -/
def deleteEvents (v : ViewState) : List ClearEventsRequest × ViewState :=
  ([⟨v.serviceName⟩], clearView v)

/-- `EventDataNode._createPopover`, reduced to its content: `none` unless the
trigger is a mousedown; otherwise the list of entry texts appended to the
container, in order. An empty metadata list yields the single placeholder
entry; each metadata entry renders as its key label text (`key ++ ": "`)
followed by its value label text. -/
def createPopover (node : EventDataNode) (eventType : String) : Option (List String) :=
  if eventType ≠ "mousedown" then none
  else some
    ((if node.eventMetadata.length = 0 then ["There is no metadata for this event"] else [])
      ++ node.eventMetadata.map (fun entry => entry.key ++ ": " ++ entry.value))

/-! ## Helper lemmas -/

/-- `_acceptEvent` never reads the grid rows, so clearing the view does not
change its verdict. -/
theorem acceptEvent_clearView (env : Env) (v : ViewState) (e : ServiceEvent) :
    acceptEvent env (clearView v) e = acceptEvent env v e := by
  simp [acceptEvent, clearView]

/-- Folding `_addEvent` over any event list touches only the rows: the bound
service name, the record button, and the checkbox are unchanged. -/
theorem foldl_addEvent_fields (env : Env) (es : List ServiceEvent) (acc : ViewState) :
    (es.foldl (fun s e => addEvent env s e) acc).serviceName = acc.serviceName ∧
    (es.foldl (fun s e => addEvent env s e) acc).recordButtonToggled = acc.recordButtonToggled ∧
    (es.foldl (fun s e => addEvent env s e) acc).originCheckboxChecked =
      acc.originCheckboxChecked := by
  induction es generalizing acc with
  | nil => exact ⟨rfl, rfl, rfl⟩
  | cons e es ih =>
    simpa [addEvent] using ih (addEvent env acc e)

/-- Folding `_addEvent` grows the row list by one row per event. -/
theorem foldl_addEvent_length (env : Env) (es : List ServiceEvent) (acc : ViewState) :
    (es.foldl (fun s e => addEvent env s e) acc).rows.length =
      acc.rows.length + es.length := by
  induction es generalizing acc with
  | nil => rfl
  | cons e es ih =>
    have h := ih (addEvent env acc e)
    simp only [List.foldl_cons] at *
    rw [h]
    simp [addEvent]
    omega

/-- Folding `_addEvent` assigns sequence ids counting up from the prior row
count: each appended row's id is the row count immediately before its
insertion. -/
theorem foldl_addEvent_ids (env : Env) (es : List ServiceEvent) (acc : ViewState) :
    (es.foldl (fun s e => addEvent env s e) acc).rows.map (fun r => r.data.id) =
      acc.rows.map (fun r => r.data.id) ++ List.range' acc.rows.length es.length := by
  induction es generalizing acc with
  | nil => simp
  | cons e es ih =>
    have h := ih (addEvent env acc e)
    simp only [List.foldl_cons] at *
    rw [h]
    simp [addEvent, createEventData, List.range'_succ, List.append_assoc]

/-- Folding `_addEvent` fills every non-id row field from the event alone
(and the environment), in order. -/
theorem foldl_addEvent_payload (env : Env) (es : List ServiceEvent) (acc : ViewState) :
    (es.foldl (fun s e => addEvent env s e) acc).rows.map (fun r =>
        (r.data.timestamp, r.data.origin, r.data.swSource, r.data.eventName,
          r.data.instanceId, r.eventMetadata)) =
      acc.rows.map (fun r =>
        (r.data.timestamp, r.data.origin, r.data.swSource, r.data.eventName,
          r.data.instanceId, r.eventMetadata)) ++
        es.map (fun e =>
          (env.formatTimestamp (e.timestamp * 1000) true, e.origin, swSourceOf env e,
            e.eventName, e.instanceId, e.eventMetadata)) := by
  induction es generalizing acc with
  | nil => simp
  | cons e es ih =>
    have h := ih (addEvent env acc e)
    simp only [List.foldl_cons] at *
    rw [h]
    simp [addEvent, createEventData, List.append_assoc]

/-- Refreshing does not move the non-row fields, so clearing after a refresh
is the same as clearing the original view. -/
theorem clearView_refreshView (env : Env) (v : ViewState) :
    clearView (refreshView env v) = clearView v := by
  unfold refreshView
  obtain ⟨h1, h2, h3⟩ := foldl_addEvent_fields env
    ((env.getEvents (clearView v).serviceName).filter
      (fun e => acceptEvent env (clearView v) e)) (clearView v)
  refine ViewState.ext ?_ ?_ ?_ ?_
  · simpa [clearView] using h1
  · simpa [clearView] using h2
  · simpa [clearView] using h3
  · rfl

/-- Two views that agree after clearing refresh to the same view. -/
theorem refreshView_congr (env : Env) {v w : ViewState} (h : clearView v = clearView w) :
    refreshView env v = refreshView env w := by
  unfold refreshView
  simp only [h]

/-! ## Claim theorems -/

/-- C1: `_acceptEvent` accepts exactly the events whose service matches the
view's bound service name and which either pass because the "show other
origins" checkbox is checked, or whose origin with exactly its last character
removed is a member (exact string equality) of the security-origin manager's
active origins. -/
theorem acceptEvent_characterization (env : Env) (v : ViewState) (e : ServiceEvent) :
    acceptEvent env v e = true ↔
      e.service = v.serviceName ∧
        (v.originCheckboxChecked = true ∨
          e.origin.take (e.origin.length - 1) ∈ env.securityOrigins) := by
  unfold acceptEvent
  by_cases h : e.service = v.serviceName
  · by_cases h2 : v.originCheckboxChecked
    · simp [h, h2]
    · simp [h, h2]
  · simp [h]

/-- C2: with a fixed environment (model buffer, origins, registrations),
refreshing twice in succession yields exactly the state one refresh yields —
same rows, same count, same field values. -/
theorem refreshView_idempotent (env : Env) (v : ViewState) :
    refreshView env (refreshView env v) = refreshView env v :=
  refreshView_congr env (clearView_refreshView env v)

/-- C3: after a full refresh, the table holds one row per accepted buffer
event, in buffer order, the sequence ids are exactly `0, 1, ..., n-1` in
insertion order, and every other field of row `i` is computed from accepted
event `i`. -/
theorem refreshView_rows_spec (env : Env) (v : ViewState) :
    ((refreshView env v).rows.length =
        ((env.getEvents v.serviceName).filter (fun e => acceptEvent env v e)).length) ∧
    ((refreshView env v).rows.map (fun r => r.data.id) =
        List.range
          ((env.getEvents v.serviceName).filter (fun e => acceptEvent env v e)).length) ∧
    ((refreshView env v).rows.map (fun r =>
        (r.data.timestamp, r.data.origin, r.data.swSource, r.data.eventName,
          r.data.instanceId, r.eventMetadata)) =
      ((env.getEvents v.serviceName).filter (fun e => acceptEvent env v e)).map (fun e =>
        (env.formatTimestamp (e.timestamp * 1000) true, e.origin, swSourceOf env e,
          e.eventName, e.instanceId, e.eventMetadata))) := by
  unfold refreshView
  simp only [acceptEvent_clearView]
  have hsvc : (clearView v).serviceName = v.serviceName := rfl
  rw [hsvc]
  refine ⟨?_, ?_, ?_⟩
  · rw [foldl_addEvent_length]
    simp [clearView]
  · rw [foldl_addEvent_ids]
    simp [clearView, List.range_eq_range']
  · rw [foldl_addEvent_payload]
    simp [clearView]

/-- C5: on a security-origin-changed notification the handler leaves the view
untouched when the "show other origins" checkbox is checked, and performs a
full refresh when it is unchecked. -/
theorem onOriginChanged_cases (env : Env) (v : ViewState) :
    (v.originCheckboxChecked = true → onOriginChanged env v = v) ∧
    (v.originCheckboxChecked = false → onOriginChanged env v = refreshView env v) := by
  constructor <;> intro h <;> simp [onOriginChanged, h]

/-- C5 witness: both branches of `onOriginChanged_cases` at concrete states. -/
theorem onOriginChanged_cases_witness :
    onOriginChanged ⟨[], [], fun _ => [], fun _ _ => ""⟩ ⟨"push", false, true, []⟩ =
        ⟨"push", false, true, []⟩ ∧
      onOriginChanged ⟨[], [], fun _ => [], fun _ _ => ""⟩ ⟨"push", false, false, []⟩ =
        refreshView ⟨[], [], fun _ => [], fun _ _ => ""⟩ ⟨"push", false, false, []⟩ :=
  ⟨(onOriginChanged_cases ⟨[], [], fun _ => [], fun _ _ => ""⟩ ⟨"push", false, true, []⟩).1 rfl,
    (onOriginChanged_cases ⟨[], [], fun _ => [], fun _ _ => ""⟩ ⟨"push", false, false, []⟩).2 rfl⟩

/-- C4: the row's service-worker source field is empty when the registration
lookup misses or the found registration has no versions; otherwise it is the
taken version's scriptURL with its first `k` characters removed, `k` being
the length of that version's securityOrigin. -/
theorem createEventData_swSource_cases (env : Env) (v : ViewState) (e : ServiceEvent) :
    (env.registrations.lookup e.serviceWorkerRegistrationId = none →
      (createEventData env v e).swSource = "") ∧
    (∀ reg, env.registrations.lookup e.serviceWorkerRegistrationId = some reg →
      reg.versions = [] → (createEventData env v e).swSource = "") ∧
    (∀ reg version rest,
      env.registrations.lookup e.serviceWorkerRegistrationId = some reg →
      reg.versions = version :: rest →
      (createEventData env v e).swSource =
        version.scriptURL.drop version.securityOrigin.length) := by
  refine ⟨?_, ?_, ?_⟩
  · intro h
    simp [createEventData, swSourceOf, h]
  · intro reg h1 h2
    simp [createEventData, swSourceOf, h1, h2]
  · intro reg version rest h1 h2
    simp [createEventData, swSourceOf, h1, h2]

/-- C4 witness: a missing registration, a version-less registration, and a
registration whose first version is `https://a.com/sw.js` with origin
`https://a.com`. -/
theorem createEventData_swSource_cases_witness :
    (createEventData ⟨[], [], fun _ => [], fun _ _ => ""⟩ ⟨"push", false, false, []⟩
        ⟨0, "https://a.com/", "r", "push", "n", "i", []⟩).swSource = "" ∧
    (createEventData ⟨[], [("r", ⟨[]⟩)], fun _ => [], fun _ _ => ""⟩
        ⟨"push", false, false, []⟩
        ⟨0, "https://a.com/", "r", "push", "n", "i", []⟩).swSource = "" ∧
    (createEventData
        ⟨[], [("r", ⟨[⟨"https://a.com/sw.js", "https://a.com"⟩]⟩)], fun _ => [],
          fun _ _ => ""⟩
        ⟨"push", false, false, []⟩
        ⟨0, "https://a.com/", "r", "push", "n", "i", []⟩).swSource = "/sw.js" := by
  refine ⟨?_, ?_, ?_⟩
  · exact (createEventData_swSource_cases ⟨[], [], fun _ => [], fun _ _ => ""⟩
      ⟨"push", false, false, []⟩ ⟨0, "https://a.com/", "r", "push", "n", "i", []⟩).1 rfl
  · exact (createEventData_swSource_cases ⟨[], [("r", ⟨[]⟩)], fun _ => [], fun _ _ => ""⟩
      ⟨"push", false, false, []⟩ ⟨0, "https://a.com/", "r", "push", "n", "i", []⟩).2.1
      ⟨[]⟩ rfl rfl
  · rw [(createEventData_swSource_cases
      ⟨[], [("r", ⟨[⟨"https://a.com/sw.js", "https://a.com"⟩]⟩)], fun _ => [],
        fun _ _ => ""⟩
      ⟨"push", false, false, []⟩
      ⟨0, "https://a.com/", "r", "push", "n", "i", []⟩).2.2
      ⟨[⟨"https://a.com/sw.js", "https://a.com"⟩]⟩
      ⟨"https://a.com/sw.js", "https://a.com"⟩ [] rfl rfl]
    rfl

/-- C6: activating the record button issues exactly one setRecording request,
carrying the negation of the button's toggled flag and the bound service
name, and leaves the view (in particular the toggled flag) unchanged; the
toggled flag is set only by a recording-state-changed notification whose
service matches, and then to its isRecording value — every other operation
preserves it. -/
theorem recording_control (env : Env) (v : ViewState) (s : RecordingState)
    (e : ServiceEvent) :
    (toggleRecording v).1 = [⟨!v.recordButtonToggled, v.serviceName⟩] ∧
    (toggleRecording v).2 = v ∧
    (s.serviceName = v.serviceName →
      onRecordingStateChanged v s = { v with recordButtonToggled := s.isRecording }) ∧
    (s.serviceName ≠ v.serviceName → onRecordingStateChanged v s = v) ∧
    (clearView v).recordButtonToggled = v.recordButtonToggled ∧
    (refreshView env v).recordButtonToggled = v.recordButtonToggled ∧
    (addEvent env v e).recordButtonToggled = v.recordButtonToggled ∧
    (onEventReceived env v e).recordButtonToggled = v.recordButtonToggled ∧
    (onOriginChanged env v).recordButtonToggled = v.recordButtonToggled ∧
    ((deleteEvents v).2).recordButtonToggled = v.recordButtonToggled := by
  have hre : (refreshView env v).recordButtonToggled = v.recordButtonToggled := by
    unfold refreshView
    have h := (foldl_addEvent_fields env
      ((env.getEvents (clearView v).serviceName).filter
        (fun e => acceptEvent env (clearView v) e)) (clearView v)).2.1
    simpa [clearView] using h
  refine ⟨rfl, rfl, ?_, ?_, rfl, hre, rfl, ?_, ?_, rfl⟩
  · intro h
    simp [onRecordingStateChanged, h]
  · intro h
    simp [onRecordingStateChanged, h]
  · by_cases h : acceptEvent env v e <;> simp [onEventReceived, h, addEvent]
  · by_cases h : v.originCheckboxChecked <;> simp [onOriginChanged, h, hre]

/-- C6 witness: a matching notification sets the flag; a non-matching one is
ignored. -/
theorem recording_control_witness :
    onRecordingStateChanged ⟨"push", false, false, []⟩ ⟨true, "push"⟩ =
        ⟨"push", true, false, []⟩ ∧
      onRecordingStateChanged ⟨"push", false, false, []⟩ ⟨true, "other"⟩ =
        ⟨"push", false, false, []⟩ :=
  ⟨(recording_control ⟨[], [], fun _ => [], fun _ _ => ""⟩ ⟨"push", false, false, []⟩
      ⟨true, "push"⟩ ⟨0, "", "", "push", "", "", []⟩).2.2.1 rfl,
    (recording_control ⟨[], [], fun _ => [], fun _ _ => ""⟩ ⟨"push", false, false, []⟩
      ⟨true, "other"⟩ ⟨0, "", "", "push", "", "", []⟩).2.2.2.1 (by decide)⟩

/-- C9: an inserted row's sequence id equals the row count immediately before
insertion; after a view-only clear the next accepted live event's row gets
id 0; and ids repeat over the table's lifetime (a cleared table restarts at
the ids it already handed out). -/
theorem row_id_prior_count (env : Env) (v : ViewState) (e : ServiceEvent) :
    ((addEvent env v e).rows.map (fun r => r.data.id) =
        v.rows.map (fun r => r.data.id) ++ [v.rows.length]) ∧
    (acceptEvent env v e = true →
      (onEventReceived env (clearView v) e).rows.map (fun r => r.data.id) = [0]) ∧
    (∃ (env0 : Env) (v0 : ViewState) (e0 : ServiceEvent),
        v0.rows ≠ [] ∧
        (addEvent env0 (clearView v0) e0).rows.map (fun r => r.data.id) =
          v0.rows.map (fun r => r.data.id)) := by
  refine ⟨by simp [addEvent, createEventData], ?_, ?_⟩
  · intro h
    have ha : acceptEvent env (clearView v) e = true := by
      rw [acceptEvent_clearView]
      exact h
    simp only [clearView] at ha
    simp [onEventReceived, addEvent, createEventData, clearView, ha]
  · refine ⟨⟨[], [], fun _ => [], fun _ _ => ""⟩,
      ⟨"push", false, false, [⟨⟨0, "", "", "", "", ""⟩, []⟩]⟩,
      ⟨0, "", "", "push", "", "", []⟩, ?_, ?_⟩
    · simp
    · rfl

/-- C9 witness: a live event accepted right after a clear lands with id 0. -/
theorem row_id_prior_count_witness :
    (onEventReceived ⟨["https://a.com"], [], fun _ => [], fun _ _ => ""⟩
        (clearView ⟨"push", false, false, [⟨⟨5, "", "", "", "", ""⟩, []⟩]⟩)
        ⟨0, "https://a.com/", "", "push", "n", "i", []⟩).rows.map (fun r => r.data.id) =
      [0] :=
  (row_id_prior_count ⟨["https://a.com"], [], fun _ => [], fun _ _ => ""⟩
    ⟨"push", false, false, [⟨⟨5, "", "", "", "", ""⟩, []⟩]⟩
    ⟨0, "https://a.com/", "", "push", "n", "i", []⟩).2.1 (by decide)

/-- C7: a triggered popover for a row with empty metadata shows exactly the
placeholder entry; otherwise one entry per metadata pair, in order, rendered
as the key, then ": ", then the value. -/
theorem createPopover_metadata_content (node : EventDataNode) :
    (node.eventMetadata = [] →
      createPopover node "mousedown" = some ["There is no metadata for this event"]) ∧
    (node.eventMetadata ≠ [] →
      createPopover node "mousedown" =
        some (node.eventMetadata.map (fun entry => entry.key ++ ": " ++ entry.value))) := by
  constructor <;> intro h <;>
    simp [createPopover, h, List.length_eq_zero]

/-- C7 witness: the popover content for a metadata-free row and for a row with
one `(k, v)` pair. -/
theorem createPopover_metadata_content_witness :
    createPopover ⟨⟨0, "", "", "", "", ""⟩, []⟩ "mousedown" =
        some ["There is no metadata for this event"] ∧
      createPopover ⟨⟨0, "", "", "", "", ""⟩, [⟨"k", "v"⟩]⟩ "mousedown" = some ["k: v"] := by
  constructor
  · exact (createPopover_metadata_content ⟨⟨0, "", "", "", "", ""⟩, []⟩).1 rfl
  · rw [(createPopover_metadata_content ⟨⟨0, "", "", "", "", ""⟩, [⟨"k", "v"⟩]⟩).2 (by decide)]
    rfl

/-- C8: the popover builder returns `none` for every trigger type other than
a mousedown, constructing no content. -/
theorem createPopover_non_mousedown (node : EventDataNode) (eventType : String)
    (h : eventType ≠ "mousedown") :
    createPopover node eventType = none := by
  simp [createPopover, h]

/-- C8 witness: a click trigger yields no popover. -/
theorem createPopover_non_mousedown_witness :
    createPopover ⟨⟨0, "", "", "", "", ""⟩, []⟩ "click" = none :=
  createPopover_non_mousedown ⟨⟨0, "", "", "", "", ""⟩, []⟩ "click" (by decide)

/-- C10: with a matching service and the origin filter disabled, an origin of
length at most one (empty or a single character) makes `_acceptEvent` perform
the membership test on the empty string; no error branch exists. -/
theorem acceptEvent_short_origin (env : Env) (v : ViewState) (e : ServiceEvent)
    (h1 : e.service = v.serviceName) (h2 : v.originCheckboxChecked = false)
    (h3 : e.origin.length ≤ 1) :
    acceptEvent env v e = env.securityOrigins.contains "" := by
  unfold acceptEvent
  have h0 : e.origin.length - 1 = 0 := by omega
  simp [h1, h2, h0, String.take_eq]

/-- C10 witness: a single-character origin is tested as the empty string. -/
theorem acceptEvent_short_origin_witness :
    acceptEvent ⟨[""], [], fun _ => [], fun _ _ => ""⟩ ⟨"push", false, false, []⟩
        ⟨0, "a", "", "push", "n", "i", []⟩ =
      (⟨[""], [], fun _ => [], fun _ _ => ""⟩ : Env).securityOrigins.contains "" :=
  acceptEvent_short_origin ⟨[""], [], fun _ => [], fun _ _ => ""⟩ ⟨"push", false, false, []⟩
    ⟨0, "a", "", "push", "n", "i", []⟩ rfl rfl (by decide)

end BackgroundServiceView
